import Mathlib

/-!
Shallow embedding of the Arbitrum co-learning demo repository
(levels 2-5: balance query, gas-fee calculation, ETH transfer, contract query).

The core component is `transfer_eth` in `level4-transfer/src/main.rs`.  Network
calls and out-of-scope library fallibles (provider construction, private-key
parsing, `parse_ether`) are modelled as oracle fields of an `Env` record; the
in-repository logic (address validation, fee arithmetic, the balance-sufficiency
check, transaction construction and the sequencing of the flow) is embedded
concretely.

Machine integers: `ethers::types::U256` values are natural numbers `< 2^256`.
The `uint` crate's `+` and `*` on `U256` panic (abort the process) on overflow,
in debug and release alike; we model a panicking operation as returning `none`,
and an aborted run by the outcome `Outcome.aborted`.
-/

namespace ArbDemo

/-- The modulus of the 256-bit unsigned integer type `U256`. -/
def U256_MOD : Nat := 2 ^ 256

/-- Addition of two `U256` values as performed by the `uint` crate:
the exact sum when it fits, `none` (a panic/abort) on overflow.
The operation never wraps silently. -/
def u256_add (a b : Nat) : Option Nat :=
  if a + b < U256_MOD then some (a + b) else none

/-- Multiplication of two `U256` values as performed by the `uint` crate:
the exact product when it fits, `none` (a panic/abort) on overflow. -/
def u256_mul (a b : Nat) : Option Nat :=
  if a * b < U256_MOD then some (a * b) else none

/-- Value of a single hex digit, case-insensitive; `none` for a non-hex
character (as in `rustc_hex`). -/
def hexVal (c : Char) : Option Nat :=
  if '0' ≤ c ∧ c ≤ '9' then some (c.toNat - '0'.toNat)
  else if 'a' ≤ c ∧ c ≤ 'f' then some (c.toNat - 'a'.toNat + 10)
  else if 'A' ≤ c ∧ c ≤ 'F' then some (c.toNat - 'A'.toNat + 10)
  else none

/-- Decode a hex string two digits per byte, as `rustc_hex::FromHexIter` does;
fails on an odd-length string or any non-hex character. -/
def decodeHexPairs : List Char → Option (List Nat)
  | [] => some []
  | c1 :: c2 :: rest =>
    match hexVal c1, hexVal c2, decodeHexPairs rest with
    | some h, some l, some bs => some ((h * 16 + l) :: bs)
    | _, _, _ => none
  | [_] => none

/-- An `Address` (`ethers::types::Address`, alias `H160`) is a 20-byte value,
modelled as its list of bytes. -/
abbrev Address := List Nat

/-- Embedding of `Address::from_str` (the `FromStr` impl generated by
`fixed-hash` for `H160`, used by `"...".parse::<Address>()` in level 2 and by
`validate_address` in level 4): an optional `0x` prefix is stripped, and the
remainder must decode to exactly 20 bytes of hex, i.e. be exactly 40
case-insensitive hex digits.  No checksum is verified. -/
def addressFromStr (s : String) : Option Address :=
  let cs := s.data
  let cs := if cs.take 2 = ['0', 'x'] then cs.drop 2 else cs
  if cs.length = 40 then decodeHexPairs cs else none

end ArbDemo

namespace Level3

open ArbDemo

/-- Gas limit for a basic ETH transfer in `level3-gas-calculate/src/main.rs`
(source comment: industry-standard value). -/
def BASIC_TRANSFER_GAS_LIMIT : Nat := 21000

/-- Embedding of `calculate_gas_fee` in `level3-gas-calculate/src/main.rs`.
The live gas price fetched by `get_gas_price()` is the first argument.
The function defaults a missing gas limit to `BASIC_TRANSFER_GAS_LIMIT` and
computes `gas_fee = gas_price * gas_limit` in `U256` (panic on overflow,
modelled as `none`).  The Rust function returns the triple as display strings
via `format_units`; we return the underlying numeric triple
(gas price, gas limit, gas fee in wei). -/
def calculate_gas_fee (gas_price : Nat) (gas_limit : Option Nat) :
    Option (Nat × Nat × Nat) :=
  let gl := gas_limit.getD BASIC_TRANSFER_GAS_LIMIT
  match u256_mul gas_price gl with
  | none => none
  | some gas_fee => some (gas_price, gl, gas_fee)

end Level3

namespace Level4

open ArbDemo

/-- Gas limit used by the transfer flow in `level4-transfer/src/main.rs`
(source comment also calls it the industry-standard value for a basic ETH
transfer, but the constant is set to 300000 there, unlike level 3's 21000). -/
def BASIC_TRANSFER_GAS_LIMIT : Nat := 300000

/-- Embedding of `validate_address` in `level4-transfer/src/main.rs`:
it simply delegates to `Address::from_str`. -/
def validate_address (address : String) : Option Address :=
  addressFromStr address

/-- The `to` field of an `ethers::types::TransactionRequest` holds a
`NameOrAddress`; the flow always supplies an address. -/
inductive NameOrAddress where
  | address (a : Address)
  | name (n : String)
deriving DecidableEq

/-- Embedding of `ethers::types::TransactionRequest`: every field optional,
`TransactionRequest::new()` leaves all unset. -/
structure TransactionRequest where
  from_addr : Option Address := none
  to_addr : Option NameOrAddress := none
  gas : Option Nat := none
  gas_price : Option Nat := none
  value : Option Nat := none
  nonce : Option Nat := none
  chain_id : Option Nat := none
deriving DecidableEq

/-- Constructor `TransactionRequest::new()`. -/
def TransactionRequest.new : TransactionRequest := {}

/-- Builder method `.to(...)` (with an address argument). -/
def TransactionRequest.with_to (tx : TransactionRequest) (a : Address) :
    TransactionRequest :=
  { tx with to_addr := some (NameOrAddress.address a) }

/-- Builder method `.value(...)`. -/
def TransactionRequest.with_value (tx : TransactionRequest) (v : Nat) :
    TransactionRequest :=
  { tx with value := some v }

/-- Builder method `.gas(...)`. -/
def TransactionRequest.with_gas (tx : TransactionRequest) (g : Nat) :
    TransactionRequest :=
  { tx with gas := some g }

/-- Builder method `.gas_price(...)`. -/
def TransactionRequest.with_gas_price (tx : TransactionRequest) (p : Nat) :
    TransactionRequest :=
  { tx with gas_price := some p }

/-- The fields of an `ethers` `LocalWallet` the flow reads: its address and
its chain id (set by `.with_chain_id`). -/
structure LocalWallet where
  address : Address
  chain_id : Nat
deriving DecidableEq

/-- Method `Signer::with_chain_id` on a `LocalWallet`. -/
def LocalWallet.with_chain_id (w : LocalWallet) (c : Nat) : LocalWallet :=
  { w with chain_id := c }

/-- Steps 9-10 of `transfer_eth` (lines 118-131): bind the wallet to the
freshly fetched chain id (`SignerMiddleware::new(provider, wallet.with_chain_id
(chain_id))`) and build the transaction
`TransactionRequest::new().to(to_address).value(amount).gas(gas_limit)
.gas_price(gas_price)`.  Returns the signer wallet and the built request. -/
def prepare_transaction (wallet : LocalWallet) (to_address : Address)
    (amount gas_limit gas_price chain_id : Nat) :
    LocalWallet × TransactionRequest :=
  (wallet.with_chain_id chain_id,
    ((((TransactionRequest.new).with_to to_address).with_value amount).with_gas
        gas_limit).with_gas_price gas_price)

/-- A transaction receipt as read by the flow (step 12). -/
structure Receipt where
  block_number : Option Nat
  gas_used : Option Nat
  status : Option Nat
deriving DecidableEq

/-- Transaction hash, abstract. -/
abbrev TxHash := Nat

/-- The distinct error exits of `transfer_eth` (in the source all are a
`Box<dyn Error>`; the insufficient-funds message is built with `format!` and
embeds the required total, the transfer amount, the gas fee and the actual
balance, which the constructor carries here as numbers). -/
inductive TransferError where
  | providerError
  | walletParseError
  | invalidAddress
  | balanceFetchError
  | amountParseError
  | gasPriceFetchError
  | insufficientFunds (total_required amount gas_fee balance : Nat)
  | chainIdFetchError
  | broadcastError
  | receiptPollError
deriving DecidableEq

/-- Oracle environment for one call of `transfer_eth`: the results of the
external, out-of-scope operations (library parsers and RPC calls), in the
order the flow consumes them.  A `none` means the operation failed; `U256`
results from the node are naturals below `2 ^ 256`. -/
structure Env where
  /-- Whether `Provider::<Http>::try_from(RPC_URL)` succeeds. -/
  provider_ok : Bool
  /-- Result of `private_key.parse::<LocalWallet>()`: the wallet, or `none` on a bad key. -/
  wallet : Option LocalWallet
  /-- The `to_address` argument (parsed by `validate_address` inside the flow). -/
  to_address : String
  /-- Result of `get_balance(&provider, from_address)`: sender balance in wei. -/
  balance : Option Nat
  /-- Result of `parse_ether(amount_eth)`: the transfer amount in wei, `none` on a
  malformed decimal string. -/
  amount_parse : Option Nat
  /-- Result of `get_gas_price(&provider)`: the current gas price in wei. -/
  gas_price : Option Nat
  /-- Result of `provider.get_chainid()`. -/
  chain_id : Option Nat
  /-- Result of `client.send_transaction(tx, None)`: the hash of the pending
  transaction, or `none` when the node rejects the broadcast. -/
  broadcast_result : Option TxHash
  /-- Result of `pending_tx.await`: `none` when the confirmation polling itself fails
  with an error, `some r` when it completes with `r` (a receipt, or no
  receipt found). -/
  receipt_poll : Option (Option Receipt)

/-- How one call of `transfer_eth` ends: a returned `Ok(tx_hash)`, a returned
`Err(e)`, or a process abort from a `U256` overflow panic. -/
inductive Outcome where
  | ok (tx_hash : TxHash)
  | error (e : TransferError)
  | aborted
deriving DecidableEq

/-- Result of a run together with the counts of signing and broadcast
invocations made against the signer/node (one `send_transaction` call signs
once and broadcasts once). -/
structure RunResult where
  outcome : Outcome
  sign_calls : Nat
  broadcast_calls : Nat
deriving DecidableEq

/-- The balance-sufficiency validation, lines 105-117 of
`level4-transfer/src/main.rs`:
`let total_required = amount + gas_fee;` (a `U256` addition that panics on
overflow) followed by `if balance < total_required { return Err(...) }`.
The error message carries the required total, the transfer amount, the gas
fee and the actual balance. -/
inductive ValidationResult where
  | ok
  | insufficient (total_required amount gas_fee balance : Nat)
  | overflowPanic
deriving DecidableEq

/-- See `ValidationResult`. -/
def validate_sufficient (balance amount gas_fee : Nat) : ValidationResult :=
  match u256_add amount gas_fee with
  | none => ValidationResult.overflowPanic
  | some total_required =>
    if balance < total_required then
      ValidationResult.insufficient total_required amount gas_fee balance
    else ValidationResult.ok

/-- Embedding of `transfer_eth` (lines 55-158 of
`level4-transfer/src/main.rs`), step by step:
1 provider construction, 2 wallet parsing, 3 recipient validation,
4 balance fetch, 5 amount parsing, 6 gas-price fetch, 7 gas-fee computation
(`gas_price * BASIC_TRANSFER_GAS_LIMIT` in `U256`), 8 balance-sufficiency
check, 9 chain-id fetch and client construction, 10 transaction build,
11 sign-and-send, 12 receipt wait; every `?` is an early error return, and a
`U256` overflow aborts.  Console printing and `format_units` display
conversions (infallible for the units used) are dropped. -/
def transfer_eth (env : Env) : RunResult :=
  if ¬ env.provider_ok then
    ⟨Outcome.error TransferError.providerError, 0, 0⟩
  else
    match env.wallet with
    | none => ⟨Outcome.error TransferError.walletParseError, 0, 0⟩
    | some wallet =>
      match validate_address env.to_address with
      | none => ⟨Outcome.error TransferError.invalidAddress, 0, 0⟩
      | some to_address =>
        match env.balance with
        | none => ⟨Outcome.error TransferError.balanceFetchError, 0, 0⟩
        | some balance =>
          match env.amount_parse with
          | none => ⟨Outcome.error TransferError.amountParseError, 0, 0⟩
          | some amount =>
            match env.gas_price with
            | none => ⟨Outcome.error TransferError.gasPriceFetchError, 0, 0⟩
            | some gas_price =>
              match u256_mul gas_price BASIC_TRANSFER_GAS_LIMIT with
              | none => ⟨Outcome.aborted, 0, 0⟩
              | some gas_fee =>
                match validate_sufficient balance amount gas_fee with
                | ValidationResult.overflowPanic => ⟨Outcome.aborted, 0, 0⟩
                | ValidationResult.insufficient t a f b =>
                  ⟨Outcome.error (TransferError.insufficientFunds t a f b), 0, 0⟩
                | ValidationResult.ok =>
                  match env.chain_id with
                  | none => ⟨Outcome.error TransferError.chainIdFetchError, 0, 0⟩
                  | some chain_id =>
                    let _built := prepare_transaction wallet to_address amount
                      BASIC_TRANSFER_GAS_LIMIT gas_price chain_id
                    match env.broadcast_result with
                    | none => ⟨Outcome.error TransferError.broadcastError, 1, 1⟩
                    | some tx_hash =>
                      match env.receipt_poll with
                      | none =>
                        ⟨Outcome.error TransferError.receiptPollError, 1, 1⟩
                      | some _receipt => ⟨Outcome.ok tx_hash, 1, 1⟩

end Level4

namespace Level4

/-- Boolean discriminator: the run returned `Err(..)`. -/
def Outcome.isError : Outcome → Bool
  | Outcome.error _ => true
  | _ => false

/-- A valid recipient string (exactly 40 hex characters after `0x`); it is the
test address hard-coded in `level2-balance-query/src/main.rs`. -/
def testRecipient : String := "0x51F14ab69C8f748F72b6DB1Aa66875faf7c24Bd2"

/-- The end-to-end insufficient-funds scenario: balance 10 wei, gas price
1 wei/gas, transfer amount 5 wei; every external call would succeed. -/
def c1_env : Env where
  provider_ok := true
  wallet := some ⟨[], 1⟩
  to_address := testRecipient
  balance := some 10
  amount_parse := some 5
  gas_price := some 1
  chain_id := some 421614
  broadcast_result := some 7
  receipt_poll := some none

/-- Environment exercising the overflow of `amount + gas_fee`: the parsed
amount is the maximal `U256` value and the fee `2^200 * 300000` still fits,
so their sum does not. -/
def c3_env : Env where
  provider_ok := true
  wallet := some ⟨[], 1⟩
  to_address := testRecipient
  balance := some 0
  amount_parse := some (2 ^ 256 - 1)
  gas_price := some (2 ^ 200)
  chain_id := some 421614
  broadcast_result := some 7
  receipt_poll := some none

/-- A second addition-overflow environment: amount `2^255`, gas price `2^237`
(the fee `2^237 * 300000` fits in `U256`, the sum does not). -/
def c3_env_b : Env where
  provider_ok := true
  wallet := some ⟨[], 1⟩
  to_address := testRecipient
  balance := some 0
  amount_parse := some (2 ^ 255)
  gas_price := some (2 ^ 237)
  chain_id := some 421614
  broadcast_result := some 7
  receipt_poll := some none

/-- A funded run whose broadcast succeeds (hash 7) and whose receipt lookup
completes with no receipt found. -/
def c4_env : Env where
  provider_ok := true
  wallet := some ⟨[], 1⟩
  to_address := testRecipient
  balance := some 1000000
  amount_parse := some 100
  gas_price := some 1
  chain_id := some 421614
  broadcast_result := some 7
  receipt_poll := some none

/-- A funded run whose broadcast succeeds (hash 7) but whose receipt polling
fails with an error. -/
def c5_env : Env where
  provider_ok := true
  wallet := some ⟨[], 1⟩
  to_address := testRecipient
  balance := some 1000000
  amount_parse := some 100
  gas_price := some 1
  chain_id := some 421614
  broadcast_result := some 7
  receipt_poll := none

/-- A funded run whose broadcast succeeds and whose receipt polling completes
with a success receipt. -/
def c5_env_b : Env where
  provider_ok := true
  wallet := some ⟨[], 1⟩
  to_address := testRecipient
  balance := some 1000000
  amount_parse := some 100
  gas_price := some 1
  chain_id := some 421614
  broadcast_result := some 7
  receipt_poll := some (some ⟨some 12345, some 21000, some 1⟩)

/-- The spec's own insufficient-funds scenario (balance 10, gas price 1,
transfer 5), used to exhibit the gas limit the level-4 flow applies. -/
def c7_env : Env where
  provider_ok := true
  wallet := some ⟨[], 1⟩
  to_address := testRecipient
  balance := some 10
  amount_parse := some 5
  gas_price := some 1
  chain_id := some 421614
  broadcast_result := some 7
  receipt_poll := some none

/-- A funded, broadcast run that polls a confirmed receipt. -/
def c10_env_confirmed : Env where
  provider_ok := true
  wallet := some ⟨[], 1⟩
  to_address := testRecipient
  balance := some 1000000
  amount_parse := some 100
  gas_price := some 1
  chain_id := some 421614
  broadcast_result := some 7
  receipt_poll := some (some ⟨some 12345, some 21000, some 1⟩)

/-- The same run as `c10_env_confirmed` except the receipt lookup finds
nothing. -/
def c10_env_unconfirmed : Env where
  provider_ok := true
  wallet := some ⟨[], 1⟩
  to_address := testRecipient
  balance := some 1000000
  amount_parse := some 100
  gas_price := some 1
  chain_id := some 421614
  broadcast_result := some 7
  receipt_poll := some none

/-- Stage lemma: provider construction failure. -/
theorem transfer_eth_provider_fail (env : Env) (h : env.provider_ok = false) :
    transfer_eth env = ⟨Outcome.error TransferError.providerError, 0, 0⟩ := by
  simp [transfer_eth, h]

/-- Stage lemma: wallet parse failure. -/
theorem transfer_eth_wallet_fail (env : Env) (h1 : env.provider_ok = true)
    (h2 : env.wallet = none) :
    transfer_eth env = ⟨Outcome.error TransferError.walletParseError, 0, 0⟩ := by
  simp [transfer_eth, h1, h2]

/-- Stage lemma: recipient validation failure. -/
theorem transfer_eth_address_fail (env : Env) (w : LocalWallet)
    (h1 : env.provider_ok = true) (h2 : env.wallet = some w)
    (h3 : validate_address env.to_address = none) :
    transfer_eth env = ⟨Outcome.error TransferError.invalidAddress, 0, 0⟩ := by
  simp [transfer_eth, h1, h2, h3]

/-- Stage lemma: balance fetch failure. -/
theorem transfer_eth_balance_fail (env : Env) (w : LocalWallet) (r : ArbDemo.Address)
    (h1 : env.provider_ok = true) (h2 : env.wallet = some w)
    (h3 : validate_address env.to_address = some r) (h4 : env.balance = none) :
    transfer_eth env = ⟨Outcome.error TransferError.balanceFetchError, 0, 0⟩ := by
  simp [transfer_eth, h1, h2, h3, h4]

/-- Stage lemma: amount parse failure. -/
theorem transfer_eth_amount_fail (env : Env) (w : LocalWallet) (r : ArbDemo.Address)
    (b : Nat) (h1 : env.provider_ok = true) (h2 : env.wallet = some w)
    (h3 : validate_address env.to_address = some r) (h4 : env.balance = some b)
    (h5 : env.amount_parse = none) :
    transfer_eth env = ⟨Outcome.error TransferError.amountParseError, 0, 0⟩ := by
  simp [transfer_eth, h1, h2, h3, h4, h5]

/-- Stage lemma: gas-price fetch failure. -/
theorem transfer_eth_gas_price_fail (env : Env) (w : LocalWallet) (r : ArbDemo.Address)
    (b a : Nat) (h1 : env.provider_ok = true) (h2 : env.wallet = some w)
    (h3 : validate_address env.to_address = some r) (h4 : env.balance = some b)
    (h5 : env.amount_parse = some a) (h6 : env.gas_price = none) :
    transfer_eth env = ⟨Outcome.error TransferError.gasPriceFetchError, 0, 0⟩ := by
  simp [transfer_eth, h1, h2, h3, h4, h5, h6]

/-- Stage lemma: the gas-fee multiplication overflows and the process aborts. -/
theorem transfer_eth_mul_abort (env : Env) (w : LocalWallet) (r : ArbDemo.Address)
    (b a p : Nat) (h1 : env.provider_ok = true) (h2 : env.wallet = some w)
    (h3 : validate_address env.to_address = some r) (h4 : env.balance = some b)
    (h5 : env.amount_parse = some a) (h6 : env.gas_price = some p)
    (h7 : ArbDemo.u256_mul p BASIC_TRANSFER_GAS_LIMIT = none) :
    transfer_eth env = ⟨Outcome.aborted, 0, 0⟩ := by
  simp [transfer_eth, h1, h2, h3, h4, h5, h6, h7]

/-- Stage lemma: the required-total addition overflows and the process aborts. -/
theorem transfer_eth_add_abort (env : Env) (w : LocalWallet) (r : ArbDemo.Address)
    (b a p fee : Nat) (h1 : env.provider_ok = true) (h2 : env.wallet = some w)
    (h3 : validate_address env.to_address = some r) (h4 : env.balance = some b)
    (h5 : env.amount_parse = some a) (h6 : env.gas_price = some p)
    (h7 : ArbDemo.u256_mul p BASIC_TRANSFER_GAS_LIMIT = some fee)
    (h8 : validate_sufficient b a fee = ValidationResult.overflowPanic) :
    transfer_eth env = ⟨Outcome.aborted, 0, 0⟩ := by
  simp [transfer_eth, h1, h2, h3, h4, h5, h6, h7, h8]

/-- Stage lemma: the balance-sufficiency check fails. -/
theorem transfer_eth_insufficient (env : Env) (w : LocalWallet) (r : ArbDemo.Address)
    (b a p fee t a' f' b' : Nat) (h1 : env.provider_ok = true)
    (h2 : env.wallet = some w) (h3 : validate_address env.to_address = some r)
    (h4 : env.balance = some b) (h5 : env.amount_parse = some a)
    (h6 : env.gas_price = some p)
    (h7 : ArbDemo.u256_mul p BASIC_TRANSFER_GAS_LIMIT = some fee)
    (h8 : validate_sufficient b a fee = ValidationResult.insufficient t a' f' b') :
    transfer_eth env =
      ⟨Outcome.error (TransferError.insufficientFunds t a' f' b'), 0, 0⟩ := by
  simp [transfer_eth, h1, h2, h3, h4, h5, h6, h7, h8]

/-- Stage lemma: all checks pass, the chain-id fetch fails. -/
theorem transfer_eth_chain_id_fail (env : Env) (w : LocalWallet) (r : ArbDemo.Address)
    (b a p fee : Nat) (h1 : env.provider_ok = true) (h2 : env.wallet = some w)
    (h3 : validate_address env.to_address = some r) (h4 : env.balance = some b)
    (h5 : env.amount_parse = some a) (h6 : env.gas_price = some p)
    (h7 : ArbDemo.u256_mul p BASIC_TRANSFER_GAS_LIMIT = some fee)
    (h8 : validate_sufficient b a fee = ValidationResult.ok)
    (h9 : env.chain_id = none) :
    transfer_eth env = ⟨Outcome.error TransferError.chainIdFetchError, 0, 0⟩ := by
  simp [transfer_eth, h1, h2, h3, h4, h5, h6, h7, h8, h9]

/-- Stage lemma: the node rejects the broadcast (one sign, one broadcast call). -/
theorem transfer_eth_broadcast_fail (env : Env) (w : LocalWallet) (r : ArbDemo.Address)
    (b a p fee c : Nat) (h1 : env.provider_ok = true) (h2 : env.wallet = some w)
    (h3 : validate_address env.to_address = some r) (h4 : env.balance = some b)
    (h5 : env.amount_parse = some a) (h6 : env.gas_price = some p)
    (h7 : ArbDemo.u256_mul p BASIC_TRANSFER_GAS_LIMIT = some fee)
    (h8 : validate_sufficient b a fee = ValidationResult.ok)
    (h9 : env.chain_id = some c) (h10 : env.broadcast_result = none) :
    transfer_eth env = ⟨Outcome.error TransferError.broadcastError, 1, 1⟩ := by
  simp [transfer_eth, h1, h2, h3, h4, h5, h6, h7, h8, h9, h10]

/-- Stage lemma: broadcast succeeded but the receipt polling itself errors. -/
theorem transfer_eth_poll_fail (env : Env) (w : LocalWallet) (r : ArbDemo.Address)
    (b a p fee c : Nat) (hsh : TxHash) (h1 : env.provider_ok = true)
    (h2 : env.wallet = some w) (h3 : validate_address env.to_address = some r)
    (h4 : env.balance = some b) (h5 : env.amount_parse = some a)
    (h6 : env.gas_price = some p)
    (h7 : ArbDemo.u256_mul p BASIC_TRANSFER_GAS_LIMIT = some fee)
    (h8 : validate_sufficient b a fee = ValidationResult.ok)
    (h9 : env.chain_id = some c) (h10 : env.broadcast_result = some hsh)
    (h11 : env.receipt_poll = none) :
    transfer_eth env = ⟨Outcome.error TransferError.receiptPollError, 1, 1⟩ := by
  simp [transfer_eth, h1, h2, h3, h4, h5, h6, h7, h8, h9, h10, h11]

/-- Stage lemma: broadcast succeeded and the receipt polling completed
(with or without a receipt): the run returns `Ok(tx_hash)`. -/
theorem transfer_eth_complete (env : Env) (w : LocalWallet) (r : ArbDemo.Address)
    (b a p fee c : Nat) (hsh : TxHash) (rc : Option Receipt)
    (h1 : env.provider_ok = true) (h2 : env.wallet = some w)
    (h3 : validate_address env.to_address = some r) (h4 : env.balance = some b)
    (h5 : env.amount_parse = some a) (h6 : env.gas_price = some p)
    (h7 : ArbDemo.u256_mul p BASIC_TRANSFER_GAS_LIMIT = some fee)
    (h8 : validate_sufficient b a fee = ValidationResult.ok)
    (h9 : env.chain_id = some c) (h10 : env.broadcast_result = some hsh)
    (h11 : env.receipt_poll = some rc) :
    transfer_eth env = ⟨Outcome.ok hsh, 1, 1⟩ := by
  simp [transfer_eth, h1, h2, h3, h4, h5, h6, h7, h8, h9, h10, h11]

end Level4

open ArbDemo

/-- C2: for all `U256` amounts `b` (balance), `a` (transfer amount) and `f`
(estimated fee), the balance-sufficiency validation succeeds iff
`b >= a + f` (the boundary `b = a + f` passes), and whenever it returns the
insufficient-funds error, that error carries exactly the required total
`a + f`, the transfer amount `a`, the fee `f` and the actual balance `b`. -/
theorem c2_validate_sufficient_iff (b a f : Nat) (hb : b < U256_MOD) :
    (Level4.validate_sufficient b a f = Level4.ValidationResult.ok ↔ a + f ≤ b) ∧
    (∀ t a' f' b',
      Level4.validate_sufficient b a f =
          Level4.ValidationResult.insufficient t a' f' b' →
        t = a + f ∧ a' = a ∧ f' = f ∧ b' = b) := by
  unfold Level4.validate_sufficient u256_add
  by_cases hof : a + f < U256_MOD
  · simp only [hof, if_true]
    by_cases hlt : b < a + f
    · simp only [hlt, if_true]
      constructor
      · constructor
        · intro h
          exact absurd h (by simp)
        · intro h
          omega
      · intro t a' f' b' h
        cases h
        exact ⟨rfl, rfl, rfl, rfl⟩
    · simp only [hlt, if_false]
      constructor
      · constructor
        · intro _
          omega
        · intro _
          trivial
      · intro t a' f' b' h
        exact absurd h (by simp)
  · simp only [hof, if_false]
    constructor
    · constructor
      · intro h
        exact absurd h (by simp)
      · intro h
        unfold U256_MOD at hb hof
        omega
    · intro t a' f' b' h
      exact absurd h (by simp)

/-- Witness for C2 at the boundary case `b = a + f` (`8 = 5 + 3`): the
validation passes there. -/
theorem c2_validate_sufficient_iff_witness :
    Level4.validate_sufficient 8 5 3 = Level4.ValidationResult.ok :=
  (c2_validate_sufficient_iff 8 5 3 (by decide)).1.mpr (by decide)

/-- C8: fee estimation is monotonic in the gas limit.  For a fixed gas price
`p` and gas limits `l1 <= l2`, whenever `calculate_gas_fee` (level 3)
produces a fee for both limits, the fee for `l2` is at least the fee for
`l1`; likewise for the raw `gas_price * gas_limit` product computed by the
level-4 transfer flow. -/
theorem c8_fee_monotonic (p l1 l2 : Nat) (hl : l1 ≤ l2) :
    (∀ t1 t2, Level3.calculate_gas_fee p (some l1) = some t1 →
      Level3.calculate_gas_fee p (some l2) = some t2 → t1.2.2 ≤ t2.2.2) ∧
    (∀ f1 f2, u256_mul p l1 = some f1 → u256_mul p l2 = some f2 →
      f1 ≤ f2) := by
  have key : ∀ f1 f2, u256_mul p l1 = some f1 → u256_mul p l2 = some f2 →
      f1 ≤ f2 := by
    intro f1 f2 h1 h2
    unfold u256_mul at h1 h2
    by_cases m1 : p * l1 < U256_MOD
    · by_cases m2 : p * l2 < U256_MOD
      · simp only [m1, m2, if_true, Option.some.injEq] at h1 h2
        subst h1
        subst h2
        exact Nat.mul_le_mul_left p hl
      · simp [m2] at h2
    · simp [m1] at h1
  constructor
  · intro t1 t2 h1 h2
    unfold Level3.calculate_gas_fee at h1 h2
    simp only [Option.getD_some] at h1 h2
    cases hm1 : u256_mul p l1 with
    | none => rw [hm1] at h1; cases h1
    | some f1 =>
      cases hm2 : u256_mul p l2 with
      | none => rw [hm2] at h2; cases h2
      | some f2 =>
        rw [hm1] at h1
        rw [hm2] at h2
        cases h1
        cases h2
        exact key f1 f2 hm1 hm2
  · exact key

/-- Witness for C8: gas price 2, limits 21000 and 300000. -/
theorem c8_fee_monotonic_witness :
    Level3.calculate_gas_fee 2 (some 21000) = some (2, 21000, 42000) ∧
    Level3.calculate_gas_fee 2 (some 300000) = some (2, 300000, 600000) ∧
    (42000 : Nat) ≤ 600000 :=
  ⟨by decide, by decide,
    (c8_fee_monotonic 2 21000 300000 (by decide)).1 (2, 21000, 42000)
      (2, 300000, 600000) (by decide) (by decide)⟩

/-- C9: round-trip of the transaction construction step (lines 118-131).
Building from recipient `R`, value `V`, gas limit `G`, gas price `P` and
chain id `C` and reading the fields back yields exactly `R`, `V`, `G`, `P`
on the built `TransactionRequest` and `C` on the chain-id-bound signer. -/
theorem c9_build_roundtrip (w : Level4.LocalWallet) (R : Address)
    (V G P C : Nat) :
    (Level4.prepare_transaction w R V G P C).2.to_addr =
        some (Level4.NameOrAddress.address R) ∧
    (Level4.prepare_transaction w R V G P C).2.value = some V ∧
    (Level4.prepare_transaction w R V G P C).2.gas = some G ∧
    (Level4.prepare_transaction w R V G P C).2.gas_price = some P ∧
    (Level4.prepare_transaction w R V G P C).1.chain_id = C :=
  ⟨rfl, rfl, rfl, rfl, rfl⟩

/-- C1: any error before broadcast short-circuits the flow.  If recipient
validation, the balance fetch, amount parsing, the gas-price fetch, or the
balance-sufficiency check fails, `transfer_eth` returns an error having made
zero signing calls and zero broadcast calls. -/
theorem c1_prebroadcast_short_circuit (env : Level4.Env)
    (h : Level4.validate_address env.to_address = none ∨
      env.balance = none ∨ env.amount_parse = none ∨ env.gas_price = none ∨
      (∃ b a p fee total, env.balance = some b ∧ env.amount_parse = some a ∧
        env.gas_price = some p ∧
        u256_mul p Level4.BASIC_TRANSFER_GAS_LIMIT = some fee ∧
        u256_add a fee = some total ∧ b < total)) :
    Level4.Outcome.isError (Level4.transfer_eth env).outcome = true ∧
    (Level4.transfer_eth env).sign_calls = 0 ∧
    (Level4.transfer_eth env).broadcast_calls = 0 := by
  cases hpr : env.provider_ok with
  | false =>
    rw [Level4.transfer_eth_provider_fail env hpr]
    exact ⟨rfl, rfl, rfl⟩
  | true =>
    cases hw : env.wallet with
    | none =>
      rw [Level4.transfer_eth_wallet_fail env hpr hw]
      exact ⟨rfl, rfl, rfl⟩
    | some w =>
      cases hv : Level4.validate_address env.to_address with
      | none =>
        rw [Level4.transfer_eth_address_fail env w hpr hw hv]
        exact ⟨rfl, rfl, rfl⟩
      | some r =>
        cases hbal : env.balance with
        | none =>
          rw [Level4.transfer_eth_balance_fail env w r hpr hw hv hbal]
          exact ⟨rfl, rfl, rfl⟩
        | some b =>
          cases hamt : env.amount_parse with
          | none =>
            rw [Level4.transfer_eth_amount_fail env w r b hpr hw hv hbal hamt]
            exact ⟨rfl, rfl, rfl⟩
          | some a =>
            cases hgp : env.gas_price with
            | none =>
              rw [Level4.transfer_eth_gas_price_fail env w r b a hpr hw hv
                hbal hamt hgp]
              exact ⟨rfl, rfl, rfl⟩
            | some p =>
              rcases h with h | h | h | h |
                ⟨b', a', p', fee, total, hb', ha', hp', hmul, hadd, hlt⟩
              · rw [hv] at h
                cases h
              · rw [hbal] at h
                cases h
              · rw [hamt] at h
                cases h
              · rw [hgp] at h
                cases h
              · rw [hbal] at hb'
                rw [hamt] at ha'
                rw [hgp] at hp'
                injection hb' with hb''
                injection ha' with ha''
                injection hp' with hp''
                subst hb''
                subst ha''
                subst hp''
                have hsuff : Level4.validate_sufficient b a fee =
                    Level4.ValidationResult.insufficient total a fee b := by
                  unfold Level4.validate_sufficient
                  rw [hadd]
                  simp [hlt]
                rw [Level4.transfer_eth_insufficient env w r b a p fee total
                  a fee b hpr hw hv hbal hamt hgp hmul hsuff]
                exact ⟨rfl, rfl, rfl⟩

/-- Witness for C1: the insufficient-funds scenario (balance 10, gas price 1,
amount 5, required total 300005) yields an error with zero sign and zero
broadcast invocations. -/
theorem c1_prebroadcast_short_circuit_witness :
    Level4.Outcome.isError (Level4.transfer_eth Level4.c1_env).outcome = true ∧
    (Level4.transfer_eth Level4.c1_env).sign_calls = 0 ∧
    (Level4.transfer_eth Level4.c1_env).broadcast_calls = 0 :=
  c1_prebroadcast_short_circuit Level4.c1_env
    (Or.inr (Or.inr (Or.inr (Or.inr
      ⟨10, 5, 1, 300000, 300005, rfl, rfl, rfl, by decide, by decide,
        by decide⟩))))

/-- C3 counterexample: a run whose required-total addition
`amount + gas_fee` overflows `U256` does not return an error at all — the
process aborts (the `uint` crate panics).  Here the parsed amount is
`2^256 - 1` and the fee `2^200 * 300000` fits, so the sum overflows. -/
theorem c3_overflow_counterexample :
    Level4.transfer_eth Level4.c3_env = ⟨Level4.Outcome.aborted, 0, 0⟩ ∧
    Level4.Outcome.isError (Level4.transfer_eth Level4.c3_env).outcome =
      false := by
  constructor
  · decide
  · decide

/-- C3 amended: an overflow of the same-unit addition
`transfer_amount + estimated_fee` is never silently wrapped, but it is not
rejected with an error either: the `U256` addition panics, the run aborts,
and no signing or broadcast call is made. -/
theorem c3_add_overflow_aborts (env : Level4.Env) (w : Level4.LocalWallet)
    (r : Address) (b a p fee : Nat) (h1 : env.provider_ok = true)
    (h2 : env.wallet = some w)
    (h3 : Level4.validate_address env.to_address = some r)
    (h4 : env.balance = some b) (h5 : env.amount_parse = some a)
    (h6 : env.gas_price = some p)
    (h7 : u256_mul p Level4.BASIC_TRANSFER_GAS_LIMIT = some fee)
    (h8 : U256_MOD ≤ a + fee) :
    Level4.transfer_eth env = ⟨Level4.Outcome.aborted, 0, 0⟩ := by
  have hsuff : Level4.validate_sufficient b a fee =
      Level4.ValidationResult.overflowPanic := by
    unfold Level4.validate_sufficient u256_add
    have : ¬ a + fee < U256_MOD := by omega
    simp [this]
  exact Level4.transfer_eth_add_abort env w r b a p fee h1 h2 h3 h4 h5 h6 h7
    hsuff

/-- Witness for the amended C3, at amount `2^255` and gas price `2^237`. -/
theorem c3_add_overflow_aborts_witness :
    Level4.transfer_eth Level4.c3_env_b = ⟨Level4.Outcome.aborted, 0, 0⟩ :=
  c3_add_overflow_aborts Level4.c3_env_b ⟨[], 1⟩
    [81, 241, 74, 182, 156, 143, 116, 143, 114, 182, 219, 26, 166, 104, 117,
      250, 247, 194, 75, 210]
    0 (2 ^ 255) (2 ^ 237) (2 ^ 237 * 300000) rfl rfl (by decide) rfl rfl rfl
    (by decide) (by decide)

/-- C4: when the broadcast succeeds and the receipt lookup completes finding
nothing, the flow ends in the non-failure outcome (`Ok(tx_hash)`, the
source's unconfirmed case, which only prints a warning), not in an error. -/
theorem c4_no_receipt_is_not_failure (env : Level4.Env)
    (w : Level4.LocalWallet) (r : Address) (b a p fee c : Nat)
    (hsh : Level4.TxHash) (h1 : env.provider_ok = true)
    (h2 : env.wallet = some w)
    (h3 : Level4.validate_address env.to_address = some r)
    (h4 : env.balance = some b) (h5 : env.amount_parse = some a)
    (h6 : env.gas_price = some p)
    (h7 : u256_mul p Level4.BASIC_TRANSFER_GAS_LIMIT = some fee)
    (h8 : Level4.validate_sufficient b a fee = Level4.ValidationResult.ok)
    (h9 : env.chain_id = some c) (h10 : env.broadcast_result = some hsh)
    (h11 : env.receipt_poll = some none) :
    (Level4.transfer_eth env).outcome = Level4.Outcome.ok hsh ∧
    Level4.Outcome.isError (Level4.transfer_eth env).outcome = false := by
  rw [Level4.transfer_eth_complete env w r b a p fee c hsh none h1 h2 h3 h4 h5
    h6 h7 h8 h9 h10 h11]
  exact ⟨rfl, rfl⟩

/-- Witness for C4: a funded run, broadcast hash 7, no receipt found. -/
theorem c4_no_receipt_is_not_failure_witness :
    (Level4.transfer_eth Level4.c4_env).outcome = Level4.Outcome.ok 7 ∧
    Level4.Outcome.isError (Level4.transfer_eth Level4.c4_env).outcome =
      false :=
  c4_no_receipt_is_not_failure Level4.c4_env ⟨[], 1⟩
    [81, 241, 74, 182, 156, 143, 116, 143, 114, 182, 219, 26, 166, 104, 117,
      250, 247, 194, 75, 210]
    1000000 100 1 300000 421614 7 rfl rfl (by decide) rfl rfl rfl (by decide)
    (by decide) rfl rfl rfl

/-- C5 counterexample: the broadcast succeeds with hash 7, but the receipt
polling itself fails; `transfer_eth` then returns the polling error
(`pending_tx.await?`), a value that does not carry the transaction hash
(it was only printed, not returned). -/
theorem c5_poll_error_drops_hash_counterexample :
    Level4.c5_env.broadcast_result = some 7 ∧
    Level4.transfer_eth Level4.c5_env =
      ⟨Level4.Outcome.error Level4.TransferError.receiptPollError, 1, 1⟩ := by
  constructor
  · decide
  · decide

/-- C5 amended: once the broadcast succeeds, the hash is returned whenever
the single receipt poll completes (receipt found or not); but when the
receipt polling itself fails, `transfer_eth` propagates that error and its
return value does not carry the hash. -/
theorem c5_hash_surfaced_unless_poll_errors (env : Level4.Env)
    (w : Level4.LocalWallet) (r : Address) (b a p fee c : Nat)
    (hsh : Level4.TxHash) (h1 : env.provider_ok = true)
    (h2 : env.wallet = some w)
    (h3 : Level4.validate_address env.to_address = some r)
    (h4 : env.balance = some b) (h5 : env.amount_parse = some a)
    (h6 : env.gas_price = some p)
    (h7 : u256_mul p Level4.BASIC_TRANSFER_GAS_LIMIT = some fee)
    (h8 : Level4.validate_sufficient b a fee = Level4.ValidationResult.ok)
    (h9 : env.chain_id = some c) (h10 : env.broadcast_result = some hsh) :
    (∀ rc, env.receipt_poll = some rc →
      Level4.transfer_eth env = ⟨Level4.Outcome.ok hsh, 1, 1⟩) ∧
    (env.receipt_poll = none →
      Level4.transfer_eth env =
        ⟨Level4.Outcome.error Level4.TransferError.receiptPollError, 1, 1⟩) :=
  ⟨fun rc h11 => Level4.transfer_eth_complete env w r b a p fee c hsh rc h1 h2
      h3 h4 h5 h6 h7 h8 h9 h10 h11,
    fun h11 => Level4.transfer_eth_poll_fail env w r b a p fee c hsh h1 h2 h3
      h4 h5 h6 h7 h8 h9 h10 h11⟩

/-- Witness for the amended C5: with a completed poll the hash 7 is
returned; with a failed poll the polling error is returned instead. -/
theorem c5_hash_surfaced_unless_poll_errors_witness :
    Level4.transfer_eth Level4.c5_env_b = ⟨Level4.Outcome.ok 7, 1, 1⟩ ∧
    Level4.transfer_eth Level4.c5_env =
      ⟨Level4.Outcome.error Level4.TransferError.receiptPollError, 1, 1⟩ :=
  ⟨(c5_hash_surfaced_unless_poll_errors Level4.c5_env_b ⟨[], 1⟩
      [81, 241, 74, 182, 156, 143, 116, 143, 114, 182, 219, 26, 166, 104,
        117, 250, 247, 194, 75, 210]
      1000000 100 1 300000 421614 7 rfl rfl (by decide) rfl rfl rfl
      (by decide) (by decide) rfl rfl).1 (some ⟨some 12345, some 21000,
        some 1⟩) rfl,
    (c5_hash_surfaced_unless_poll_errors Level4.c5_env ⟨[], 1⟩
      [81, 241, 74, 182, 156, 143, 116, 143, 114, 182, 219, 26, 166, 104,
        117, 250, 247, 194, 75, 210]
      1000000 100 1 300000 421614 7 rfl rfl (by decide) rfl rfl rfl
      (by decide) (by decide) rfl rfl).2 rfl⟩

/-- C10: the success value of `transfer_eth` does not distinguish the
confirmed from the unconfirmed outcome: whenever the broadcast succeeds with
hash `hsh` and the receipt polling completes with any result `rc` (a receipt
or nothing), the returned value is identically `Ok(hsh)` — it does not
depend on `rc`, so the caller cannot tell whether the transaction was
confirmed. -/
theorem c10_confirmed_unconfirmed_same_value (env : Level4.Env)
    (w : Level4.LocalWallet) (r : Address) (b a p fee c : Nat)
    (hsh : Level4.TxHash) (rc : Option Level4.Receipt)
    (h1 : env.provider_ok = true) (h2 : env.wallet = some w)
    (h3 : Level4.validate_address env.to_address = some r)
    (h4 : env.balance = some b) (h5 : env.amount_parse = some a)
    (h6 : env.gas_price = some p)
    (h7 : u256_mul p Level4.BASIC_TRANSFER_GAS_LIMIT = some fee)
    (h8 : Level4.validate_sufficient b a fee = Level4.ValidationResult.ok)
    (h9 : env.chain_id = some c) (h10 : env.broadcast_result = some hsh)
    (h11 : env.receipt_poll = some rc) :
    Level4.transfer_eth env = ⟨Level4.Outcome.ok hsh, 1, 1⟩ :=
  Level4.transfer_eth_complete env w r b a p fee c hsh rc h1 h2 h3 h4 h5 h6 h7
    h8 h9 h10 h11

/-- Witness for C10: two runs identical except that one polls a confirmed
receipt and the other finds none return the same value `Ok(7)`. -/
theorem c10_confirmed_unconfirmed_same_value_witness :
    Level4.transfer_eth Level4.c10_env_confirmed =
      ⟨Level4.Outcome.ok 7, 1, 1⟩ ∧
    Level4.transfer_eth Level4.c10_env_unconfirmed =
      ⟨Level4.Outcome.ok 7, 1, 1⟩ :=
  ⟨c10_confirmed_unconfirmed_same_value Level4.c10_env_confirmed ⟨[], 1⟩
      [81, 241, 74, 182, 156, 143, 116, 143, 114, 182, 219, 26, 166, 104,
        117, 250, 247, 194, 75, 210]
      1000000 100 1 300000 421614 7 (some ⟨some 12345, some 21000, some 1⟩)
      rfl rfl (by decide) rfl rfl rfl (by decide) (by decide) rfl rfl rfl,
    c10_confirmed_unconfirmed_same_value Level4.c10_env_unconfirmed ⟨[], 1⟩
      [81, 241, 74, 182, 156, 143, 116, 143, 114, 182, 219, 26, 166, 104,
        117, 250, 247, 194, 75, 210]
      1000000 100 1 300000 421614 7 none rfl rfl (by decide) rfl rfl rfl
      (by decide) (by decide) rfl rfl rfl⟩

/-- Decoding success implies every character was a hex digit. -/
theorem decodeHexPairs_all_hex : ∀ (cs : List Char) (bs : List Nat),
    decodeHexPairs cs = some bs → ∀ c ∈ cs, (hexVal c).isSome = true
  | [], _, _, _, hc => by cases hc
  | [c0], _, h, _, _ => by
    unfold decodeHexPairs at h
    cases h
  | c1 :: c2 :: rest, bs, h, c, hc => by
    unfold decodeHexPairs at h
    rcases h1 : hexVal c1 with _ | v1 <;> rw [h1] at h
    · cases h
    rcases h2 : hexVal c2 with _ | v2 <;> rw [h2] at h
    · cases h
    rcases h3 : decodeHexPairs rest with _ | bs2 <;> rw [h3] at h
    · cases h
    simp only [List.mem_cons] at hc
    rcases hc with rfl | rfl | hc
    · rw [h1]
      rfl
    · rw [h2]
      rfl
    · exact decodeHexPairs_all_hex rest bs2 h3 c hc

/-- C6 counterexample: the string singled out by the spec has exactly 40 hex
characters after the `0x` prefix (not 41), so address parsing accepts it
instead of failing. -/
theorem c6_address_counterexample :
    (("0x51F14ab69C8f748F72b6DB1Aa66875faf7c24Bd2").data.drop 2).length =
      40 ∧
    addressFromStr ("0x51F14ab69C8f748F72b6DB1Aa66875faf7c24Bd2") =
      some [81, 241, 74, 182, 156, 143, 116, 143, 114, 182, 219, 26, 166,
        104, 117, 250, 247, 194, 75, 210] := by
  constructor
  · decide
  · decide

/-- C6 amended: address parsing is total and rejects any string whose hex
payload (after an optional `0x` prefix) is not exactly 40 hex characters —
wrong length or any non-hex character — while the spec's example string,
being exactly 40 hex characters, parses successfully. -/
theorem c6_address_parsing_amended :
    (∀ s : String,
      ((if s.data.take 2 = ['0', 'x'] then s.data.drop 2 else
          s.data).length ≠ 40 ∨
        (∃ c ∈ (if s.data.take 2 = ['0', 'x'] then s.data.drop 2 else
          s.data), hexVal c = none)) →
      addressFromStr s = none) ∧
    (addressFromStr ("0x51F14ab69C8f748F72b6DB1Aa66875faf7c24Bd2")).isSome =
      true := by
  constructor
  · intro s h
    unfold addressFromStr
    simp only []
    rcases h with h | ⟨c, hc, hbad⟩
    · rw [if_neg h]
    · by_cases hlen : (if s.data.take 2 = ['0', 'x'] then s.data.drop 2 else
          s.data).length = 40
      · rw [if_pos hlen]
        cases hdec : decodeHexPairs (if s.data.take 2 = ['0', 'x'] then
            s.data.drop 2 else s.data) with
        | none => rfl
        | some bs =>
          exfalso
          have hsome := decodeHexPairs_all_hex _ bs hdec c hc
          rw [hbad] at hsome
          cases hsome
      · rw [if_neg hlen]
  · decide

/-- Witness for the amended C6: the 41-hex-character payload obtained by
appending one digit to the spec's example is rejected. -/
theorem c6_address_parsing_amended_witness :
    addressFromStr ("0x51F14ab69C8f748F72b6DB1Aa66875faf7c24Bd20") = none :=
  c6_address_parsing_amended.1
    ("0x51F14ab69C8f748F72b6DB1Aa66875faf7c24Bd20") (Or.inl (by decide))

/-- C7 counterexample: the plain native-asset transfer flow (level 4) uses
the gas-limit constant 300000, not 21000; at the spec's own scenario
(balance 10, gas price 1, amount 5) the flow computes the fee 300000 and the
required total 300005. -/
theorem c7_gas_limit_counterexample :
    Level4.BASIC_TRANSFER_GAS_LIMIT = 300000 ∧
    ¬ Level4.BASIC_TRANSFER_GAS_LIMIT = 21000 ∧
    (Level4.transfer_eth Level4.c7_env).outcome =
      Level4.Outcome.error
        (Level4.TransferError.insufficientFunds 300005 5 300000 10) := by
  refine ⟨rfl, by decide, ?_⟩
  decide

/-- C7 amended: the level-4 plain transfer flow uses the fixed constant
300000 (its `BASIC_TRANSFER_GAS_LIMIT`) for fee estimation and the balance
check, while the level-3 gas-fee calculator defaults a plain transfer to
21000; whenever the level-4 flow reports insufficient funds, the fee it used
is `gas_price * 300000`. -/
theorem c7_gas_limit_amended (env : Level4.Env) (w : Level4.LocalWallet)
    (r : Address) (b a p : Nat) (h1 : env.provider_ok = true)
    (h2 : env.wallet = some w)
    (h3 : Level4.validate_address env.to_address = some r)
    (h4 : env.balance = some b) (h5 : env.amount_parse = some a)
    (h6 : env.gas_price = some p) (hmul : p * 300000 < U256_MOD)
    (hadd : a + p * 300000 < U256_MOD) (hlt : b < a + p * 300000) :
    (Level4.transfer_eth env).outcome =
      Level4.Outcome.error
        (Level4.TransferError.insufficientFunds (a + p * 300000) a
          (p * 300000) b) ∧
    Level4.BASIC_TRANSFER_GAS_LIMIT = 300000 ∧
    Level3.BASIC_TRANSFER_GAS_LIMIT = 21000 ∧
    (∀ q, Level3.calculate_gas_fee q none =
      Level3.calculate_gas_fee q (some 21000)) := by
  have hmul' : u256_mul p Level4.BASIC_TRANSFER_GAS_LIMIT =
      some (p * 300000) := by
    unfold u256_mul Level4.BASIC_TRANSFER_GAS_LIMIT
    rw [if_pos hmul]
  have hsuff : Level4.validate_sufficient b a (p * 300000) =
      Level4.ValidationResult.insufficient (a + p * 300000) a (p * 300000)
        b := by
    unfold Level4.validate_sufficient u256_add
    rw [if_pos hadd]
    simp [hlt]
  refine ⟨?_, rfl, rfl, fun q => rfl⟩
  rw [Level4.transfer_eth_insufficient env w r b a p (p * 300000)
    (a + p * 300000) a (p * 300000) b h1 h2 h3 h4 h5 h6 hmul' hsuff]

/-- Witness for the amended C7 at the spec scenario: fee `1 * 300000`,
required total 300005. -/
theorem c7_gas_limit_amended_witness :
    (Level4.transfer_eth Level4.c7_env).outcome =
      Level4.Outcome.error
        (Level4.TransferError.insufficientFunds 300005 5 300000 10) :=
  (c7_gas_limit_amended Level4.c7_env ⟨[], 1⟩
    [81, 241, 74, 182, 156, 143, 116, 143, 114, 182, 219, 26, 166, 104, 117,
      250, 247, 194, 75, 210]
    10 5 1 rfl rfl (by decide) rfl rfl rfl (by decide) (by decide)
    (by decide)).1
